import Mathlib

/-!
Verification development for the exam-integrity proctoring loop.

The definitions below are a shallow embedding of the proctoring code:
the `CameraProctor` component (its `performCheck` routine, the cadence
interval and the `takeSnapshot` imperative handle), the `App` timeline
handling (`handleProctorViolation` and the report-time sort), and the
gemini service `analyzePresence`.  Timestamps are naturals (milliseconds),
frames are opaque strings (the base64 payload), and JavaScript values
that may be `undefined` at runtime are embedded as `Option`.
-/

namespace Proctoring

/-- The `status` field of a `ProctorLog` (types.ts). -/
inductive LogStatus
  | SAFE
  | WARNING
  | CRITICAL
  | TAB_SWITCH
  deriving DecidableEq, Repr

/-- A timeline entry (`ProctorLog` in types.ts).  The `message` field is
`Option String` because the runtime value can be `undefined` when the
oracle result lacks a `description` field. -/
structure ProctorLog where
  timestamp : Nat
  status : LogStatus
  message : Option String
  snapshot : Option String
  deriving DecidableEq, Repr

/-- The JavaScript object produced by parsing the oracle response.  Each
field is optional because `JSON.parse` of a partial object yields a value
whose missing properties read as `undefined`. -/
structure GenResult where
  isPersonPresent : Option Bool
  count : Option Int
  description : Option String
  deriving DecidableEq, Repr

/-- `PROCTOR_CHECK_INTERVAL` from constants.ts (milliseconds). -/
def PROCTOR_CHECK_INTERVAL : Nat := 5000

/-! ### A model of `JSON.parse` for flat primitive objects

The gemini call constrains the oracle response schema to a flat JSON
object with boolean, integer, and string fields, so `JSON.parse` is
modelled for exactly that fragment: an object literal whose values are
booleans, integers, strings without escape sequences, or `null`.
Anything outside the fragment parses to `none`, which the service code
treats like a thrown parse error. -/

/-- A primitive JSON value. -/
inductive JVal
  | jbool (b : Bool)
  | jint (n : Int)
  | jstr (s : String)
  | jnull
  deriving DecidableEq, Repr

/-- The opening brace character. -/
def lbraceChar : Char := Char.ofNat 123

/-- The closing brace character. -/
def rbraceChar : Char := Char.ofNat 125

/-- Drop leading JSON whitespace. -/
def skipWs : List Char → List Char
  | [] => []
  | c :: cs => if c = ' ' ∨ c = '\n' ∨ c = '\t' ∨ c = '\r' then skipWs cs else c :: cs

/-- Read the characters of a quoted string up to the closing quote.
Escape sequences are outside the modelled fragment. -/
def parseStrChars : List Char → Option (List Char × List Char)
  | [] => none
  | c :: cs =>
    if c = '"' then some ([], cs)
    else if c = '\\' then none
    else (parseStrChars cs).map (fun p => (c :: p.1, p.2))

/-- Parse a quoted JSON string. -/
def parseJString : List Char → Option (String × List Char)
  | '"' :: cs => (parseStrChars cs).map (fun p => (String.mk p.1, p.2))
  | _ => none

/-- Consume a run of decimal digits. -/
def parseDigits : List Char → (List Nat × List Char)
  | [] => ([], [])
  | c :: cs =>
    if c.isDigit then
      let p := parseDigits cs
      ((c.toNat - 48) :: p.1, p.2)
    else ([], c :: cs)

/-- Combine decimal digits into a natural number. -/
def natOfDigits (ds : List Nat) : Nat :=
  ds.foldl (fun a d => a * 10 + d) 0

/-- Parse a (possibly negative) JSON integer. -/
def parseJInt (cs : List Char) : Option (Int × List Char) :=
  match cs with
  | '-' :: cs2 =>
    match parseDigits cs2 with
    | ([], _) => none
    | (ds, rest) => some (-(Int.ofNat (natOfDigits ds)), rest)
  | _ =>
    match parseDigits cs with
    | ([], _) => none
    | (ds, rest) => some (Int.ofNat (natOfDigits ds), rest)

/-- Parse one primitive JSON value. -/
def parseJVal (cs : List Char) : Option (JVal × List Char) :=
  match cs with
  | 't' :: 'r' :: 'u' :: 'e' :: rest => some (.jbool true, rest)
  | 'f' :: 'a' :: 'l' :: 's' :: 'e' :: rest => some (.jbool false, rest)
  | 'n' :: 'u' :: 'l' :: 'l' :: rest => some (.jnull, rest)
  | '"' :: rest => (parseStrChars rest).map (fun p => (.jstr (String.mk p.1), p.2))
  | _ => (parseJInt cs).map (fun p => (.jint p.1, p.2))

/-- Parse the comma-separated members of an object body.  The fuel
argument bounds recursion depth; the caller supplies the input length,
which suffices because every member consumes at least one character. -/
def parseMembers : Nat → List Char → Option (List (String × JVal) × List Char)
  | 0, _ => none
  | Nat.succ fuel, cs =>
    match parseJString (skipWs cs) with
    | none => none
    | some (k, cs1) =>
      match skipWs cs1 with
      | ':' :: cs2 =>
        match parseJVal (skipWs cs2) with
        | none => none
        | some (v, cs3) =>
          match skipWs cs3 with
          | ',' :: cs4 =>
            match parseMembers fuel cs4 with
            | none => none
            | some (kvs, cs5) => some ((k, v) :: kvs, cs5)
          | cs4 => some ([(k, v)], cs4)
      | _ => none

/-- Model of `JSON.parse` on the flat-object fragment: `none` stands for
a thrown `SyntaxError`. -/
def jsonParse (s : String) : Option (List (String × JVal)) :=
  match skipWs s.toList with
  | [] => none
  | c :: cs =>
    if c = lbraceChar then
      match skipWs cs with
      | [] => none
      | c2 :: cs2 =>
        if c2 = rbraceChar then
          if (skipWs cs2).isEmpty then some [] else none
        else
          match parseMembers s.length (c2 :: cs2) with
          | none => none
          | some (kvs, rest) =>
            match skipWs rest with
            | [] => none
            | c3 :: cs3 =>
              if c3 = rbraceChar ∧ (skipWs cs3).isEmpty then some kvs else none
    else none

/-- Property lookup on a parsed object; with duplicate keys the last
binding wins, as for JavaScript object literals. -/
def jLookup (k : String) : List (String × JVal) → Option JVal
  | [] => none
  | (k2, v) :: kvs =>
    match jLookup k kvs with
    | some v2 => some v2
    | none => if k2 = k then some v else none

/-- Read a boolean property; any other shape reads as `undefined`. -/
def asBool : Option JVal → Option Bool
  | some (.jbool b) => some b
  | _ => none

/-- Read an integer property; any other shape reads as `undefined`. -/
def asInt : Option JVal → Option Int
  | some (.jint n) => some n
  | _ => none

/-- Read a string property; any other shape reads as `undefined`. -/
def asStr : Option JVal → Option String
  | some (.jstr s) => some s
  | _ => none

/-- The three property reads the consumer performs on the parsed oracle
response. -/
def toGenResult (kvs : List (String × JVal)) : GenResult :=
  { isPersonPresent := asBool (jLookup "isPersonPresent" kvs)
    count := asInt (jLookup "count" kvs)
    description := asStr (jLookup "description" kvs) }

/-! ### The gemini service (`analyzePresence`) -/

/-- Outcome of the `generateContent` call as observed by the service:
either the promise rejected (transport or inference failure), or it
resolved with a `text` field that may be `undefined`. -/
inductive GenResponse
  | failed
  | ok (text : Option String)

/-- The literal text of an empty JSON object. -/
def emptyObjectText : String := "\x7b\x7d"

/-- Embedding of the JavaScript expression `response.text || "\x7b\x7d"`:
both `undefined` and the empty string fall back to the empty object. -/
def responseTextOrDefault : Option String → String
  | none => emptyObjectText
  | some t => if t = "" then emptyObjectText else t

/-- The safe default the service returns from its catch block. -/
def safeDefaultResult : GenResult :=
  { isPersonPresent := some true
    count := some 1
    description := some "Analysis failed, assuming safe." }

/-- `analyzePresence` from the gemini service: parse the response text
with the empty-object fallback; any exception inside the try block
(transport failure or parse error) is caught and replaced by the safe
default.  The embedding is a total function, matching the fact that the
service never lets an exception escape. -/
def analyzePresence (resp : GenResponse) : GenResult :=
  match resp with
  | .failed => safeDefaultResult
  | .ok text =>
    match jsonParse (responseTextOrDefault text) with
    | some kvs => toGenResult kvs
    | none => safeDefaultResult

/-! ### Classification of a detection result -/

/-- The violation test `!result.isPersonPresent || result.count !== 1`:
under the response schema, `isPersonPresent` is falsy exactly when it is
not the boolean `true`, and `count !== 1` holds unless `count` is the
number one. -/
def shouldLog (r : GenResult) : Bool :=
  !decide (r.isPersonPresent = some true) || !decide (r.count = some 1)

/-- The status expression `result.count === 0 ? CRITICAL : WARNING`. -/
def violationStatus (r : GenResult) : LogStatus :=
  if r.count = some 0 then .CRITICAL else .WARNING

/-- The snapshot data URL built from the captured base64 payload. -/
def dataUrl (frame : String) : String :=
  "data:image/jpeg;base64," ++ frame

/-- The timeline entry a resolving routine check produces: `some` entry
when the result is unsafe, `none` when the check is silent. -/
def detectionEntry (now : Nat) (frame : String) (r : GenResult) : Option ProctorLog :=
  if shouldLog r then
    some { timestamp := now
           status := violationStatus r
           message := r.description
           snapshot := some (dataUrl frame) }
  else none

/-- Embedding of the JavaScript string fallback `m || d` (both
`undefined` and the empty string are falsy). -/
def jsOrDefault (m : Option String) (d : String) : String :=
  match m with
  | none => d
  | some s => if s = "" then d else s

/-- The entry appended on the forced path of `performCheck`. -/
def forcedEntry (now : Nat) (frame : String) (msg : Option String) (st : LogStatus) :
    ProctorLog :=
  { timestamp := now
    status := st
    message := some (jsOrDefault msg "System integrity event.")
    snapshot := some (dataUrl frame) }

/-! ### The proctoring loop state machine

`LoopState` collects the component state (`isProcessing`,
`cameraActive`, the video/canvas readiness observations, the cadence
timestamp ref) together with the in-flight oracle invocations and the
App-side `proctorLogs` array that `onViolation` appends to.  The async
`performCheck` is split at its single suspension point: starting a
routine check records a pending invocation, and a separate resolve step
runs the continuation after `await analyzePresence`. -/

/-- One in-flight oracle invocation: the base64 frame captured when the
check started. -/
structure PendingCheck where
  frame : String
  deriving DecidableEq, Repr

/-- The combined component and timeline state. -/
structure LoopState where
  isProcessing : Bool
  cameraActive : Bool
  isActive : Bool
  lastCheckTime : Nat
  videoPresent : Bool
  canvasPresent : Bool
  ctxOk : Bool
  readyState : Nat
  videoWidth : Nat
  pending : List PendingCheck
  logs : List ProctorLog
  deriving DecidableEq, Repr

/-- The readiness test of `performCheck`: the element checks
`!video || !canvas || video.readyState < 2 || video.videoWidth === 0`
followed by the 2d-context check. -/
def captureReady (s : LoopState) : Bool :=
  s.videoPresent && s.canvasPresent && decide (2 ≤ s.readyState)
    && decide (s.videoWidth ≠ 0) && s.ctxOk

/-- The synchronous part of `performCheck`, up to its suspension point.
Routine calls (no forced status) are guarded by `isProcessing` and
`cameraActive`; forced calls bypass that guard.  After the readiness
checks, a routine call resets `lastCheckTimeRef` immediately, captures
the frame, marks in-flight and starts the oracle invocation; a forced
call appends its entry directly. -/
def performCheck (now : Nat) (frame : String) (msg : Option String)
    (forcedStatus : Option LogStatus) (s : LoopState) : LoopState :=
  if forcedStatus.isNone && (s.isProcessing || !s.cameraActive) then s
  else if !captureReady s then s
  else
    match forcedStatus with
    | some st => { s with logs := s.logs ++ [forcedEntry now frame msg st] }
    | none =>
      { s with
        lastCheckTime := now
        isProcessing := true
        pending := s.pending ++ [{ frame := frame }] }

/-- The continuation of a routine check after `await analyzePresence`:
append the violation entry when the result is unsafe, then clear
`isProcessing`.  The handler does not consult `isActive`. -/
def resolveCheck (now : Nat) (r : GenResult) (s : LoopState) : LoopState :=
  match s.pending with
  | [] => s
  | p :: rest =>
    { s with
      logs := s.logs ++ (detectionEntry now p.frame r).toList
      pending := rest
      isProcessing := false }

/-- Environment and scheduler events driving the component. -/
inductive Event
  | tick (now : Nat) (frame : String)
  | takeSnapshot (now : Nat) (frame : String) (msg : Option String) (st : Option LogStatus)
  | resolve (now : Nat) (r : GenResult)
  | playing
  | pauseEvt
  | media (vp cp ctx : Bool) (rs w : Nat)
  | activate
  | deactivate

/-- One step of the machine.  The cadence interval exists only while
`isActive` and fires `performCheck` when the elapsed time since
`lastCheckTime` reaches `PROCTOR_CHECK_INTERVAL`; `takeSnapshot` is the
imperative handle; `resolve` delivers a pending oracle result;
the remaining events record environment transitions. -/
def step (s : LoopState) (e : Event) : LoopState :=
  match e with
  | .tick now frame =>
    if s.isActive && decide (PROCTOR_CHECK_INTERVAL ≤ now - s.lastCheckTime) then
      performCheck now frame none none s
    else s
  | .takeSnapshot now frame msg st => performCheck now frame msg st s
  | .resolve now r => resolveCheck now r s
  | .playing => { s with cameraActive := true }
  | .pauseEvt => { s with cameraActive := false }
  | .media vp cp ctx rs w =>
    { s with videoPresent := vp, canvasPresent := cp, ctxOk := ctx,
             readyState := rs, videoWidth := w }
  | .activate => { s with isActive := true }
  | .deactivate => { s with isActive := false }

/-- Run a sequence of events. -/
def run (s : LoopState) (es : List Event) : LoopState :=
  es.foldl step s

/-- The state at mount: nothing in flight, no camera, empty timeline. -/
def initState : LoopState :=
  { isProcessing := false
    cameraActive := false
    isActive := false
    lastCheckTime := 0
    videoPresent := false
    canvasPresent := false
    ctxOk := false
    readyState := 0
    videoWidth := 0
    pending := []
    logs := [] }

/-! ### Statement-order traces of `performCheck` -/

/-- Detection strategy selection (`PROCTOR_MODE`); the single-strategy
component variant behaves as `REMOTE`. -/
inductive ProctorMode
  | REMOTE
  | LOCAL
  deriving DecidableEq, Repr

/-- The observable steps of one `performCheck` body. -/
inductive CheckAction
  | setLastCheck
  | captureFrame
  | markInFlight
  | invokeRemote
  | invokeLocal
  | handleResult
  | clearInFlight
  | appendForced
  deriving DecidableEq, Repr

/-- The statement order of a `performCheck` body whose guards passed,
transcribed from the source: a routine call resets the cadence
timestamp first, then captures, marks in-flight, invokes the selected
oracle, handles the result and clears in-flight; a forced call captures
and appends its entry. -/
def performCheckActions (mode : ProctorMode) (forced : Bool) : List CheckAction :=
  if forced then [.captureFrame, .appendForced]
  else
    [.setLastCheck, .captureFrame, .markInFlight,
     (if mode = .LOCAL then .invokeLocal else .invokeRemote),
     .handleResult, .clearInFlight]

/-- Modelled from the spec: the cycle order stated in section 4.3,
`capture frame, mark in-flight, invoke oracle, handle result, clear
in-flight, update lastCheckTimestamp`.  Used only for comparison with
the trace transcribed from the source. -/
def specCycleActions : List CheckAction :=
  [.captureFrame, .markInFlight, .invokeRemote, .handleResult,
   .clearInFlight, .setLastCheck]

/-! ### App-level timeline operations -/

/-- The operations App performs on `proctorLogs`:
`record` is `handleProctorViolation` (append one entry), and
`renderSort` is the report-time `proctorLogs.sort((a, b) => b.timestamp - a.timestamp)`,
which sorts the array in place. -/
inductive TimelineOp
  | record (log : ProctorLog)
  | renderSort

/-- The in-place sort at report render: stable sort by the comparator
`b.timestamp - a.timestamp`, i.e. descending timestamps. -/
def jsSortDesc (logs : List ProctorLog) : List ProctorLog :=
  List.insertionSort (fun a b => b.timestamp ≤ a.timestamp) logs

/-- Apply one timeline operation. -/
def applyOp (logs : List ProctorLog) (op : TimelineOp) : List ProctorLog :=
  match op with
  | .record l => logs ++ [l]
  | .renderSort => jsSortDesc logs

/-- Run a sequence of timeline operations. -/
def timelineRun (logs : List ProctorLog) (ops : List TimelineOp) : List ProctorLog :=
  ops.foldl applyOp logs



/-! ### The in-flight guard invariant -/

/-- Invariant coupling the `isProcessing` flag with the in-flight set:
there is at most one pending oracle invocation, and none at all when
`isProcessing` is clear. -/
def GuardInv (s : LoopState) : Prop :=
  s.pending.length ≤ 1 ∧ (s.isProcessing = false → s.pending = [])

theorem guardInv_performCheck (now : Nat) (frame : String) (msg : Option String)
    (st : Option LogStatus) (s : LoopState) (h : GuardInv s) :
    GuardInv (performCheck now frame msg st s) := by
  cases st with
  | some st0 =>
    unfold performCheck
    split
    · exact h
    · split
      · exact h
      · exact ⟨h.1, h.2⟩
  | none =>
    unfold performCheck
    split
    · exact h
    · next hguard =>
      split
      · exact h
      · have hproc : s.isProcessing = false := by
          by_contra hc
          rw [Bool.not_eq_false] at hc
          exact hguard (by simp [hc])
        have hp : s.pending = [] := h.2 hproc
        refine ⟨?_, ?_⟩ <;> simp [hp]

theorem guardInv_resolveCheck (now : Nat) (r : GenResult) (s : LoopState)
    (h : GuardInv s) : GuardInv (resolveCheck now r s) := by
  unfold resolveCheck
  split
  · exact h
  · next p rest heq =>
    have hrest : rest = [] := by
      have h1 := h.1
      rw [heq, List.length_cons] at h1
      exact List.length_eq_zero.mp (Nat.le_zero.mp (Nat.le_of_succ_le_succ h1))
    exact ⟨by simp [hrest], fun _ => hrest⟩

theorem guardInv_step (s : LoopState) (e : Event) (h : GuardInv s) :
    GuardInv (step s e) := by
  cases e with
  | tick now frame =>
    simp only [step]
    split
    · exact guardInv_performCheck now frame none none s h
    · exact h
  | takeSnapshot now frame msg st =>
    exact guardInv_performCheck now frame msg st s h
  | resolve now r => exact guardInv_resolveCheck now r s h
  | playing => exact ⟨h.1, h.2⟩
  | pauseEvt => exact ⟨h.1, h.2⟩
  | media vp cp ctx rs w => exact ⟨h.1, h.2⟩
  | activate => exact ⟨h.1, h.2⟩
  | deactivate => exact ⟨h.1, h.2⟩

theorem guardInv_run (es : List Event) : ∀ s : LoopState, GuardInv s → GuardInv (run s es) := by
  induction es with
  | nil => exact fun s h => h
  | cons e es ih => exact fun s h => ih (step s e) (guardInv_step s e h)

theorem guardInv_initState : GuardInv initState :=
  ⟨by simp [initState], fun _ => rfl⟩

/-- C1: for every sequence of events from the initial state, at most one
oracle invocation is in flight; and a routine `performCheck` that finds
`isProcessing` set, or the camera inactive, returns the state unchanged
(no capture, no invocation, no timeline entry). -/
theorem routine_checks_at_most_one_inflight :
    (∀ es : List Event, (run initState es).pending.length ≤ 1)
    ∧ (∀ (s : LoopState) (now : Nat) (frame : String),
        s.isProcessing = true ∨ s.cameraActive = false →
        performCheck now frame none none s = s) := by
  constructor
  · exact fun es => (guardInv_run es initState guardInv_initState).1
  · intro s now frame h
    unfold performCheck
    rcases h with h | h <;> simp [h]

/-- A demonstration event sequence for the C1 witness. -/
def demoEvents : List Event :=
  [.activate, .media true true true 4 640, .playing,
   .tick 5000 "frameA", .tick 5200 "frameB",
   .resolve 5600 safeDefaultResult, .tick 10600 "frameC"]

/-- A state with a routine check in flight, for the C1 witness. -/
def procDemoState : LoopState :=
  { initState with
    isProcessing := true
    cameraActive := true
    pending := [{ frame := "frameA" }] }

/-- Witness for C1 at concrete inputs. -/
theorem routine_checks_at_most_one_inflight_witness :
    (run initState demoEvents).pending.length ≤ 1
    ∧ performCheck 7 "frameB" none none procDemoState = procDemoState :=
  ⟨routine_checks_at_most_one_inflight.1 demoEvents,
   routine_checks_at_most_one_inflight.2 procDemoState 7 "frameB" (Or.inl rfl)⟩

/-! ### C4: a stale oracle resolution after deactivation -/

/-- Scenario: the loop activates, the camera becomes ready, a routine
check starts at t=5000, the loop is deactivated, and the in-flight
oracle call resolves unsafely at t=6000. -/
def staleScenario : List Event :=
  [.activate, .media true true true 4 640, .playing,
   .tick 5000 "frameA", .deactivate,
   .resolve 6000 { isPersonPresent := some false, count := some 0,
                   description := some "No person detected." }]

/-- C4: the completion handler of a routine check does not consult
`isActive`, so a result that resolves after deactivation still appends
its violation entry: the timeline ends with one CRITICAL entry even
though the loop is inactive. -/
theorem stale_resolution_appends_after_deactivation :
    (run initState staleScenario).isActive = false
    ∧ (run initState staleScenario).logs
        = [{ timestamp := 6000, status := .CRITICAL,
             message := some "No person detected.",
             snapshot := some (dataUrl "frameA") }] :=
  ⟨rfl, rfl⟩



/-! ### C3, C5, C8, C9, C10 -/

/-- Reduction of the resolve step when exactly one check is in flight. -/
theorem resolveCheck_logs_of_pending (now : Nat) (s : LoopState) (p : PendingCheck)
    (hp : s.pending = [p]) (r : GenResult) :
    (resolveCheck now r s).logs = s.logs ++ (detectionEntry now p.frame r).toList := by
  unfold resolveCheck
  rw [hp]

/-- C3: classification of a resolving routine check: a result with
count 0 appends exactly one CRITICAL entry carrying the oracle
description; count greater than one, or count 1 without a present
person, appends exactly one WARNING entry; count 1 with a present
person appends nothing. -/
theorem detection_result_classification
    (s : LoopState) (p : PendingCheck) (now : Nat)
    (present : Bool) (c : Int) (desc : String)
    (hp : s.pending = [p]) :
    (c = 0 →
      (resolveCheck now (⟨some present, some c, some desc⟩ : GenResult) s).logs
        = s.logs ++ [{ timestamp := now, status := .CRITICAL, message := some desc,
                       snapshot := some (dataUrl p.frame) }])
    ∧ (1 < c ∨ (c = 1 ∧ present = false) →
      (resolveCheck now (⟨some present, some c, some desc⟩ : GenResult) s).logs
        = s.logs ++ [{ timestamp := now, status := .WARNING, message := some desc,
                       snapshot := some (dataUrl p.frame) }])
    ∧ (c = 1 → present = true →
      (resolveCheck now (⟨some present, some c, some desc⟩ : GenResult) s).logs
        = s.logs) := by
  refine ⟨?_, ?_, ?_⟩
  · rintro rfl
    rw [resolveCheck_logs_of_pending now s p hp]
    have h1 : shouldLog (⟨some present, some 0, some desc⟩ : GenResult) = true := by
      simp [shouldLog]
    have h2 : violationStatus (⟨some present, some 0, some desc⟩ : GenResult)
        = .CRITICAL := by
      simp [violationStatus]
    simp [detectionEntry, h1, h2]
  · intro hw
    rw [resolveCheck_logs_of_pending now s p hp]
    have h1 : shouldLog (⟨some present, some c, some desc⟩ : GenResult) = true := by
      have hne : ¬(c = 1) ∨ present = false := by
        rcases hw with hc | ⟨_, hpres⟩
        · exact Or.inl (by omega)
        · exact Or.inr hpres
      rcases hne with hc | hpres
      · simp [shouldLog, hc]
      · simp [shouldLog, hpres]
    have h2 : violationStatus (⟨some present, some c, some desc⟩ : GenResult)
        = .WARNING := by
      unfold violationStatus
      rw [if_neg]
      simp only [Option.some.injEq]
      rcases hw with hc | ⟨hc, _⟩ <;> omega
    simp [detectionEntry, h1, h2]
  · rintro rfl rfl
    rw [resolveCheck_logs_of_pending now s p hp]
    have h1 : shouldLog (⟨some true, some 1, some desc⟩ : GenResult) = false := by
      simp [shouldLog]
    simp [detectionEntry, h1]

/-- Witness for C3 at a concrete unsafe result. -/
theorem detection_result_classification_witness :
    (resolveCheck 7000 (⟨some true, some 0, some "Nobody visible."⟩ : GenResult)
        procDemoState).logs
      = procDemoState.logs
          ++ [{ timestamp := 7000, status := .CRITICAL,
                message := some "Nobody visible.",
                snapshot := some (dataUrl "frameA") }] :=
  (detection_result_classification procDemoState { frame := "frameA" } 7000 true 0
      "Nobody visible." rfl).1 rfl

/-- C5: the service resolves with the safe default on transport failure
and on parse failure, the default carries the degraded-mode description,
and a check that resolves with the default never appends an entry. -/
theorem analyzePresence_degrades_to_safe_default :
    analyzePresence .failed = safeDefaultResult
    ∧ (∀ text : Option String,
        jsonParse (responseTextOrDefault text) = none →
        analyzePresence (.ok text) = safeDefaultResult)
    ∧ safeDefaultResult
        = ⟨some true, some 1, some "Analysis failed, assuming safe."⟩
    ∧ (∀ (now : Nat) (s : LoopState),
        (resolveCheck now safeDefaultResult s).logs = s.logs) := by
  refine ⟨rfl, ?_, rfl, ?_⟩
  · intro text h
    simp only [analyzePresence]
    rw [h]
  · intro now s
    unfold resolveCheck
    split
    · rfl
    · have h1 : shouldLog safeDefaultResult = false := by
        simp [shouldLog, safeDefaultResult]
      simp [detectionEntry, h1]

/-- Witness for C5: a rejected call and a malformed body both yield the
safe default, and resolving with the default appends nothing. -/
theorem analyzePresence_degrades_to_safe_default_witness :
    analyzePresence .failed = safeDefaultResult
    ∧ analyzePresence (.ok (some "not json")) = safeDefaultResult
    ∧ (resolveCheck 4200 safeDefaultResult procDemoState).logs = procDemoState.logs :=
  ⟨analyzePresence_degrades_to_safe_default.1,
   analyzePresence_degrades_to_safe_default.2.1 (some "not json") rfl,
   analyzePresence_degrades_to_safe_default.2.2.2 4200 procDemoState⟩

/-- C8: with the video element missing, its ready state below 2, or a
zero width, `performCheck` is a no-op for routine and forced calls
alike, and so is a cadence tick. -/
theorem not_ready_check_is_noop
    (s : LoopState) (now : Nat) (frame : String) (msg : Option String)
    (st : Option LogStatus)
    (h : s.videoPresent = false ∨ s.readyState < 2 ∨ s.videoWidth = 0) :
    performCheck now frame msg st s = s ∧ step s (.tick now frame) = s := by
  have hcr : captureReady s = false := by
    rcases h with h | h | h
    · simp [captureReady, h]
    · simp [captureReady, decide_eq_false (by omega : ¬(2 ≤ s.readyState))]
    · simp [captureReady, h]
  have hpc : ∀ (m : Option String) (t : Option LogStatus),
      performCheck now frame m t s = s := by
    intro m t
    unfold performCheck
    split
    · rfl
    · rw [hcr]
      rfl
  refine ⟨hpc msg st, ?_⟩
  simp only [step]
  split
  · exact hpc none none
  · rfl

/-- A state whose camera is live but whose video element has not yet
reported readiness. -/
def notReadyDemoState : LoopState :=
  { initState with cameraActive := true, isActive := true }

/-- Witness for C8 on a concrete not-ready state. -/
theorem not_ready_check_is_noop_witness :
    performCheck 5000 "frameA" none none notReadyDemoState = notReadyDemoState
    ∧ step notReadyDemoState (.tick 5000 "frameA") = notReadyDemoState :=
  not_ready_check_is_noop notReadyDemoState 5000 "frameA" none none (Or.inl rfl)

/-- A fully ready, active state with nothing in flight. -/
def readyDemoState : LoopState :=
  { initState with
    isActive := true
    cameraActive := true
    videoPresent := true
    canvasPresent := true
    ctxOk := true
    readyState := 4
    videoWidth := 640 }

/-- C9: a forced check never invokes either detection oracle — its
statement trace contains no oracle invocation in either strategy mode —
and it appends exactly one entry carrying the caller status and the
caller message with its default, leaving the in-flight set and the
`isProcessing` flag untouched. -/
theorem forced_check_never_invokes_oracle :
    (∀ mode : ProctorMode,
        CheckAction.invokeRemote ∉ performCheckActions mode true
        ∧ CheckAction.invokeLocal ∉ performCheckActions mode true)
    ∧ (∀ (s : LoopState) (now : Nat) (frame : String) (msg : Option String)
        (st : LogStatus),
        captureReady s = true →
        (performCheck now frame msg (some st) s).logs
            = s.logs ++ [{ timestamp := now, status := st,
                           message := some (jsOrDefault msg "System integrity event."),
                           snapshot := some (dataUrl frame) }]
        ∧ (performCheck now frame msg (some st) s).pending = s.pending
        ∧ (performCheck now frame msg (some st) s).isProcessing = s.isProcessing) := by
  constructor
  · intro mode
    exact ⟨by cases mode <;> decide, by cases mode <;> decide⟩
  · intro s now frame msg st hready
    have hred : performCheck now frame msg (some st) s
        = { s with logs := s.logs ++ [forcedEntry now frame msg st] } := by
      unfold performCheck
      simp [hready]
    rw [hred]
    exact ⟨rfl, rfl, rfl⟩

/-- Witness for C9 on a concrete tab-switch capture. -/
theorem forced_check_never_invokes_oracle_witness :
    CheckAction.invokeRemote ∉ performCheckActions .LOCAL true
    ∧ (performCheck 1234 "frameT" (some "User switched tabs.")
          (some .TAB_SWITCH) readyDemoState).logs
        = readyDemoState.logs
            ++ [{ timestamp := 1234, status := .TAB_SWITCH,
                  message := some (jsOrDefault (some "User switched tabs.")
                                      "System integrity event."),
                  snapshot := some (dataUrl "frameT") }] :=
  ⟨(forced_check_never_invokes_oracle.1 .LOCAL).1,
   (forced_check_never_invokes_oracle.2 readyDemoState 1234 "frameT"
      (some "User switched tabs.") .TAB_SWITCH rfl).1⟩

/-- The object a successful call with an empty body parses to. -/
def emptyParsedResult : GenResult :=
  ⟨none, none, none⟩

/-- C10: a transport success whose text body is absent or empty parses
to the empty object — not the safe default — and the consuming routine
check then appends a WARNING entry whose message is undefined. -/
theorem empty_oracle_response_yields_warning
    (s : LoopState) (p : PendingCheck) (now : Nat) (hp : s.pending = [p]) :
    analyzePresence (.ok none) = emptyParsedResult
    ∧ analyzePresence (.ok (some "")) = emptyParsedResult
    ∧ emptyParsedResult ≠ safeDefaultResult
    ∧ (resolveCheck now emptyParsedResult s).logs
        = s.logs ++ [{ timestamp := now, status := .WARNING, message := none,
                       snapshot := some (dataUrl p.frame) }] := by
  refine ⟨rfl, rfl, by decide, ?_⟩
  rw [resolveCheck_logs_of_pending now s p hp]
  have h1 : shouldLog emptyParsedResult = true := by
    simp [shouldLog, emptyParsedResult]
  have h2 : violationStatus emptyParsedResult = .WARNING := by
    simp [violationStatus, emptyParsedResult]
  have h3 : emptyParsedResult.description = none := rfl
  simp [detectionEntry, h1, h2, h3]

/-- Witness for C10 with one check in flight. -/
theorem empty_oracle_response_yields_warning_witness :
    (resolveCheck 9000 emptyParsedResult procDemoState).logs
      = procDemoState.logs
          ++ [{ timestamp := 9000, status := .WARNING, message := none,
                snapshot := some (dataUrl "frameA") }] :=
  (empty_oracle_response_yields_warning procDemoState { frame := "frameA" }
      9000 rfl).2.2.2



/-! ### C2: forced checks bypass the in-flight guard -/

/-- C2: a forced check invoked while a routine check is in flight still
appends exactly one entry (forced status, caller message, snapshot of
that instant) before returning, and the concurrently resolving routine
result, when unsafe, appends its own separate entry afterwards. -/
theorem forced_check_bypasses_inflight_guard
    (s : LoopState) (p : PendingCheck) (nowF nowR : Nat) (frame : String)
    (msg : Option String) (st : LogStatus) (r : GenResult)
    (hp : s.pending = [p]) (hready : captureReady s = true)
    (hr : shouldLog r = true) :
    (performCheck nowF frame msg (some st) s).logs
        = s.logs ++ [forcedEntry nowF frame msg st]
    ∧ (resolveCheck nowR r (performCheck nowF frame msg (some st) s)).logs
        = s.logs ++ [forcedEntry nowF frame msg st,
            { timestamp := nowR, status := violationStatus r,
              message := r.description, snapshot := some (dataUrl p.frame) }] := by
  have hred : performCheck nowF frame msg (some st) s
      = { s with logs := s.logs ++ [forcedEntry nowF frame msg st] } := by
    unfold performCheck
    simp [hready]
  constructor
  · rw [hred]
  · rw [hred]
    have hp2 : ({ s with logs := s.logs ++ [forcedEntry nowF frame msg st] }
        : LoopState).pending = [p] := hp
    rw [resolveCheck_logs_of_pending nowR _ p hp2]
    simp [detectionEntry, hr]

/-- A ready state with one routine check in flight, for the C2 witness. -/
def forcedDemoState : LoopState :=
  { readyDemoState with
    isProcessing := true
    pending := [{ frame := "frameA" }] }

/-- Witness for C2: a tab-switch capture during an in-flight check,
followed by an unsafe resolution — two separate entries. -/
theorem forced_check_bypasses_inflight_guard_witness :
    (performCheck 100 "frameB" (some "Window lost focus.") (some .TAB_SWITCH)
        forcedDemoState).logs
      = forcedDemoState.logs
          ++ [forcedEntry 100 "frameB" (some "Window lost focus.") .TAB_SWITCH]
    ∧ (resolveCheck 150 (⟨some false, some 0, some "No one visible."⟩ : GenResult)
          (performCheck 100 "frameB" (some "Window lost focus.") (some .TAB_SWITCH)
            forcedDemoState)).logs
      = forcedDemoState.logs
          ++ [forcedEntry 100 "frameB" (some "Window lost focus.") .TAB_SWITCH,
              { timestamp := 150,
                status := violationStatus
                  (⟨some false, some 0, some "No one visible."⟩ : GenResult),
                message := (⟨some false, some 0, some "No one visible."⟩
                  : GenResult).description,
                snapshot := some (dataUrl "frameA") }] :=
  forced_check_bypasses_inflight_guard forcedDemoState { frame := "frameA" }
    100 150 "frameB" (some "Window lost focus.") .TAB_SWITCH
    (⟨some false, some 0, some "No one visible."⟩ : GenResult)
    rfl rfl (by decide)

/-! ### C6: order of the routine cycle -/

/-- C6 counterexample: the routine cycle does not follow the spec order
— the statement trace differs from `specCycleActions`, and a concrete
started check already holds the new `lastCheckTime` while its result is
still unprocessed (the pending set is nonempty), although the cycle
began at `lastCheckTime = 0`. -/
theorem lastCheck_update_order_counterexample :
    performCheckActions .REMOTE false ≠ specCycleActions
    ∧ (performCheck 7 "frameA" none none readyDemoState).pending ≠ []
    ∧ (performCheck 7 "frameA" none none readyDemoState).lastCheckTime = 7
    ∧ readyDemoState.lastCheckTime = 0 := by
  refine ⟨by decide, by decide, rfl, rfl⟩

/-- C6 amended: the cycle performs capture, mark in-flight, invoke,
handle result and clear in-flight in the spec order, but updates
`lastCheckTime` first — immediately, before capture — and a later
resolution leaves it at the cycle start time. -/
theorem routine_cycle_order_amended :
    ([.captureFrame, .markInFlight, .invokeRemote, .handleResult, .clearInFlight]
        : List CheckAction).Sublist (performCheckActions .REMOTE false)
    ∧ (performCheckActions .REMOTE false).head? = some .setLastCheck
    ∧ (∀ (s : LoopState) (now : Nat) (frame : String),
        s.isProcessing = false →
        (performCheck now frame none none s).isProcessing = true →
        (performCheck now frame none none s).lastCheckTime = now
        ∧ (performCheck now frame none none s).pending
            = s.pending ++ [{ frame := frame }]
        ∧ (performCheck now frame none none s).logs = s.logs
        ∧ ∀ (nowR : Nat) (r : GenResult),
            (resolveCheck nowR r (performCheck now frame none none s)).isProcessing
              = false
            ∧ (resolveCheck nowR r (performCheck now frame none none s)).lastCheckTime
              = now) := by
  refine ⟨by decide, rfl, ?_⟩
  intro s now frame hproc hstarted
  have key : performCheck now frame none none s = s
      ∨ performCheck now frame none none s
          = { s with lastCheckTime := now, isProcessing := true,
                     pending := s.pending ++ [{ frame := frame }] } := by
    unfold performCheck
    split
    · exact Or.inl rfl
    · split
      · exact Or.inl rfl
      · exact Or.inr rfl
  rcases key with hk | hk
  · rw [hk, hproc] at hstarted
    exact absurd hstarted Bool.false_ne_true
  · rw [hk]
    refine ⟨rfl, rfl, rfl, ?_⟩
    intro nowR r
    unfold resolveCheck
    cases hsp : s.pending with
    | nil => simp [hsp]
    | cons q qs => simp [hsp]

/-- Witness for C6 amended: a started check on the ready demo state. -/
theorem routine_cycle_order_amended_witness :
    (performCheck 9 "frameX" none none readyDemoState).lastCheckTime = 9
    ∧ (performCheck 9 "frameX" none none readyDemoState).pending
        = readyDemoState.pending ++ [{ frame := "frameX" }] := by
  have h := routine_cycle_order_amended.2.2 readyDemoState 9 "frameX" rfl (by decide)
  exact ⟨h.1, h.2.1⟩

/-! ### C7: the timeline under App operations -/

/-- A first demo entry. -/
def logA : ProctorLog :=
  { timestamp := 1, status := .WARNING, message := some "a", snapshot := none }

/-- A second, later demo entry. -/
def logB : ProctorLog :=
  { timestamp := 2, status := .TAB_SWITCH, message := some "b", snapshot := none }

/-- C7 counterexample: the report-time in-place sort is an operation on
`proctorLogs` that neither leaves the array unchanged nor appends an
entry at the end — it permutes the array (same length, different
order). -/
theorem timeline_sort_not_append_counterexample :
    applyOp [logA, logB] .renderSort = [logB, logA]
    ∧ applyOp [logA, logB] .renderSort ≠ [logA, logB]
    ∧ (applyOp [logA, logB] .renderSort).length = 2
    ∧ ¬∃ e, applyOp [logA, logB] .renderSort = [logA, logB] ++ [e] := by
  refine ⟨by decide, by decide, by decide, ?_⟩
  rintro ⟨e, he⟩
  have hlen := congrArg List.length he
  have h2 : (applyOp [logA, logB] TimelineOp.renderSort).length = 2 := by decide
  rw [h2] at hlen
  simp at hlen

/-- C7 amended: every App operation on the timeline either appends one
entry at the end or permutes the existing entries in place (the
report-time sort); hence across any operation sequence the length is
non-decreasing and no entry is ever removed or mutated — every entry
present before is present, unchanged, afterwards. -/
theorem timeline_append_or_permute_amended :
    (∀ (logs : List ProctorLog) (op : TimelineOp),
        (∃ e, applyOp logs op = logs ++ [e]) ∨ (applyOp logs op).Perm logs)
    ∧ (∀ (logs : List ProctorLog) (ops : List TimelineOp),
        logs.length ≤ (timelineRun logs ops).length
        ∧ (∀ e, e ∈ logs → e ∈ timelineRun logs ops)) := by
  have hop : ∀ (logs : List ProctorLog) (op : TimelineOp),
      (∃ e, applyOp logs op = logs ++ [e]) ∨ (applyOp logs op).Perm logs := by
    intro logs op
    cases op with
    | record l => exact Or.inl ⟨l, rfl⟩
    | renderSort => exact Or.inr (List.perm_insertionSort _ _)
  have hstep : ∀ (logs : List ProctorLog) (op : TimelineOp),
      logs.length ≤ (applyOp logs op).length
        ∧ ∀ e, e ∈ logs → e ∈ applyOp logs op := by
    intro logs op
    rcases hop logs op with ⟨e2, he⟩ | hperm
    · rw [he]
      exact ⟨by simp, fun e he2 => List.mem_append_left _ he2⟩
    · exact ⟨Nat.le_of_eq hperm.length_eq.symm, fun e he2 => hperm.mem_iff.mpr he2⟩
  refine ⟨hop, ?_⟩
  intro logs ops
  induction ops generalizing logs with
  | nil => exact ⟨Nat.le_refl _, fun e he => he⟩
  | cons op ops ih =>
    have h1 := hstep logs op
    have h2 := ih (applyOp logs op)
    exact ⟨Nat.le_trans h1.1 h2.1, fun e he => h2.2 e (h1.2 e he)⟩

/-- Witness for C7 amended: an append followed by the render sort keeps
the original entry and does not shrink the timeline. -/
theorem timeline_append_or_permute_amended_witness :
    ([logA] : List ProctorLog).length
        ≤ (timelineRun [logA] [.record logB, .renderSort]).length
    ∧ logA ∈ timelineRun [logA] [.record logB, .renderSort] := by
  have h := timeline_append_or_permute_amended.2 [logA] [.record logB, .renderSort]
  exact ⟨h.1, h.2 logA (by decide)⟩

end Proctoring
